import Mathlib

/-!
# StrokeEngine — shallow embedding and verification

This file embeds the motion-supervisor logic of `src/StrokeEngine.cpp` into
Lean 4 and settles the specification claims against it.

Modelling conventions:
* C `double`/`float` values are modelled by `CDouble`, an exact fraction type
  (numerator/denominator, not normalised).  Every floating computation the
  claims touch is exact in small rationals, so exact fractions are a faithful
  model; `CDouble.trunc` models C's truncating conversion `int(·)` (rounding
  toward zero).
* C `int` values are modelled by `Int` (no overflow occurs at the inputs the
  claims are about).
* Calls into the external `FastAccelStepper` driver are recorded as a list of
  `ServoCommand` values (the order the source issues them in).
* The external pattern objects (`patternTable[...]`) carry exactly the four
  parameters the engine injects; the table is modelled as a total map
  `Int → PatternState` stored in the engine state, and each pattern's
  `nextTarget` is an opaque function argument where a cycle needs it.
* `vTaskDelay`-style scheduling is not modelled; each background-task body is
  embedded as a pure function of the engine state and the driver/pin inputs it
  reads during one run (a finite sample trace for the homing poll loop).
-/

/-- Exact fraction model of a C `double`: numerator and (positive by
construction) denominator, not normalised. -/
structure CDouble where
  num : Int
  den : Nat
  deriving DecidableEq, Repr

/-- Embed an integer value into the `double` model. -/
def CDouble.ofInt (n : Int) : CDouble := ⟨n, 1⟩

/-- Exact addition of `double` values. -/
def CDouble.add (a b : CDouble) : CDouble :=
  ⟨a.num * b.den + b.num * a.den, a.den * b.den⟩

/-- Exact multiplication of `double` values. -/
def CDouble.mul (a b : CDouble) : CDouble :=
  ⟨a.num * b.num, a.den * b.den⟩

/-- Negation of a `double` value. -/
def CDouble.neg (a : CDouble) : CDouble := ⟨-a.num, a.den⟩

/-- Exact division of `double` values.  Division by zero produces a
denominator of `0`; the embedding only ever relies on `div` away from zero
divisors (the one zero-divisor site in the source, the crash-avoidance
division, is modelled separately with an explicit `Option`). -/
def CDouble.div (a b : CDouble) : CDouble :=
  if b.num < 0 then ⟨-(a.num * b.den), a.den * b.num.natAbs⟩
  else ⟨a.num * b.den, a.den * b.num.natAbs⟩

/-- C's truncating conversion `int(x)`: rounds toward zero. -/
def CDouble.trunc (a : CDouble) : Int := Int.tdiv a.num a.den

/-- Comparison `a < b` on the `double` model (valid for positive
denominators, which all constructed values have). -/
def CDouble.blt (a b : CDouble) : Bool := a.num * b.den < b.num * a.den

/-- Arduino's `constrain(amt, low, high)` macro on `double` values:
`(amt < low) ? low : ((amt > high) ? high : amt)`. -/
def constrainC (x lo hi : CDouble) : CDouble :=
  if CDouble.blt x lo then lo else if CDouble.blt hi x then hi else x

/-- Arduino's `constrain(amt, low, high)` macro on `int` values. -/
def constrain (x lo hi : Int) : Int :=
  if x < lo then lo else if hi < x then hi else x

/-- Arduino digital level `LOW`. -/
def LOW : Int := 0

/-- Arduino digital level `HIGH`. -/
def HIGH : Int := 1

/-- The machine geometry handed to `begin` (`machineGeometry`, all mm). -/
structure machineGeometry where
  physicalTravel : CDouble
  keepoutBoundary : CDouble
  deriving DecidableEq, Repr

/-- The motor properties handed to `begin` (`motorProperties`).  The source
refers to the steps-per-millimeter field both as `stepPerMillimeter`
(line 18) and `stepsPerMillimeter` (everywhere else); it is one quantity. -/
structure motorProperties where
  stepsPerMillimeter : CDouble
  maxRPM : CDouble
  stepsPerRevolution : CDouble
  maxAcceleration : CDouble
  deriving DecidableEq, Repr

/-- A transient motion request (`motionParameter`): target position in steps,
speed in steps/s, acceleration in steps/s². -/
structure motionParameter where
  position : Int
  speed : Int
  acceleration : Int
  deriving DecidableEq, Repr

/-- The engine lifecycle state (`ServoState`). -/
inductive ServoState where
  | SERVO_DISABLED
  | SERVO_READY
  | SERVO_RUNNING
  | SERVO_ERROR
  deriving DecidableEq, Repr

/-- The four motion parameters a pattern object stores after injection
(`setTimeOfStroke` / `setDepth` / `setStroke` / `setSensation`). -/
structure PatternState where
  timeOfStroke : CDouble
  depth : Int
  stroke : Int
  sensation : CDouble
  deriving DecidableEq, Repr

/-- One call issued to the `FastAccelStepper` driver. -/
inductive ServoCommand where
  | setSpeedInHz (v : Int)
  | setAcceleration (v : Int)
  | applySpeedAcceleration
  | moveTo (p : Int)
  | move (d : Int)
  | forceStopAndNewPosition (p : Int)
  | stopMove
  | setCurrentPosition (p : Int)
  | enableOutputs
  | disableOutputs
  deriving DecidableEq, Repr

/-- The mutable fields of the `StrokeEngine` class, plus the configuration
references `begin` stores and the homing configuration `enableAndHome`
stores.  `patterns` is the injected-parameter view of `patternTable`. -/
structure StrokeEngineState where
  state : ServoState
  isHomed : Bool
  patternIndex : Int
  index : Int
  depth : Int
  stroke : Int
  timeOfStroke : CDouble
  sensation : CDouble
  minStep : Int
  maxStep : Int
  maxStepPerSecond : Int
  maxStepAcceleration : Int
  physics : machineGeometry
  motor : motorProperties
  homeingPin : Int
  homeingActiveLow : Int
  homeingSpeed : CDouble
  patterns : Int → PatternState

/-- Point update of the injected-parameter view of the pattern table. -/
def updatePattern (ps : Int → PatternState) (i : Int)
    (f : PatternState → PatternState) : Int → PatternState :=
  fun j => if j = i then f (ps j) else ps j

/-- Injection of all four current motion parameters into pattern `i`
(the four `patternTable[...]->set...` calls the source makes together in
`setPattern` and `startMotion`). -/
def injectAll (ps : Int → PatternState) (i : Int) (t : CDouble)
    (d st : Int) (sen : CDouble) : Int → PatternState :=
  updatePattern ps i (fun _ => ⟨t, d, st, sen⟩)

/-- `StrokeEngine::begin` (src lines 10–46): derives the step-space limits
from geometry and motor properties and initialises the engine fields.
The initial pattern-table parameter view is passed in, as the pattern
objects are external.  Note the source's `_stroke = 1/3 * _maxStep` is an
integer division: `1/3 == 0`. -/
def StrokeEngine.begin (physics : machineGeometry) (motor : motorProperties)
    (patterns0 : Int → PatternState) : StrokeEngineState :=
  let travel := physics.physicalTravel.add
    ((CDouble.ofInt 2).mul physics.keepoutBoundary).neg
  let maxStep := ((CDouble.ofInt 1).div (CDouble.ofInt 2)).add
    (travel.mul motor.stepsPerMillimeter) |>.trunc
  { state := ServoState.SERVO_DISABLED
    isHomed := false
    patternIndex := 0
    index := 0
    depth := maxStep
    stroke := (1 / 3 : Int) * maxStep
    timeOfStroke := CDouble.ofInt 1
    sensation := CDouble.ofInt 0
    minStep := 0
    maxStep := maxStep
    maxStepPerSecond := ((CDouble.ofInt 1).div (CDouble.ofInt 2)).add
      ((motor.maxRPM.mul motor.stepsPerRevolution).div (CDouble.ofInt 60)) |>.trunc
    maxStepAcceleration := ((CDouble.ofInt 1).div (CDouble.ofInt 2)).add
      (motor.maxAcceleration.mul motor.stepsPerRevolution) |>.trunc
    physics := physics
    motor := motor
    homeingPin := 0
    homeingActiveLow := 1
    homeingSpeed := CDouble.ofInt 0
    patterns := patterns0 }

/-- `StrokeEngine::setSpeed` (src lines 48–62): converts strokes/min to
seconds per stroke, constrains to `[0.01, 120]`, stores it and forwards it
into the currently selected pattern. -/
def StrokeEngine.setSpeed (s : StrokeEngineState) (speed : CDouble) :
    StrokeEngineState :=
  let t := constrainC ((CDouble.ofInt 60).div speed) ⟨1, 100⟩ (CDouble.ofInt 120)
  { s with timeOfStroke := t
           patterns := updatePattern s.patterns s.patternIndex
             (fun p => { p with timeOfStroke := t }) }

/-- `StrokeEngine::setDepth` (src lines 64–77): converts mm to steps
(truncating), constrains to `[minStep, maxStep]`, stores and forwards. -/
def StrokeEngine.setDepth (s : StrokeEngineState) (depth : CDouble) :
    StrokeEngineState :=
  let d := constrain ((depth.mul s.motor.stepsPerMillimeter).trunc)
    s.minStep s.maxStep
  { s with depth := d
           patterns := updatePattern s.patterns s.patternIndex
             (fun p => { p with depth := d }) }

/-- `StrokeEngine::setStroke` (src lines 79–92): converts mm to steps
(truncating), constrains to `[minStep, maxStep]`, stores and forwards. -/
def StrokeEngine.setStroke (s : StrokeEngineState) (stroke : CDouble) :
    StrokeEngineState :=
  let st := constrain ((stroke.mul s.motor.stepsPerMillimeter).trunc)
    s.minStep s.maxStep
  { s with stroke := st
           patterns := updatePattern s.patterns s.patternIndex
             (fun p => { p with stroke := st }) }

/-- `StrokeEngine::setSensation` (src lines 94–104): constrains to
`[-100, 100]`, stores and forwards. -/
def StrokeEngine.setSensation (s : StrokeEngineState) (sensation : CDouble) :
    StrokeEngineState :=
  let sen := constrainC sensation (CDouble.ofInt (-100)) (CDouble.ofInt 100)
  { s with sensation := sen
           patterns := updatePattern s.patterns s.patternIndex
             (fun p => { p with sensation := sen }) }

/-- Modelled from the spec: the declaration of `patternTableSize` lives in
`pattern.h`, which is not under `src/`; the spec describes it as the count
(`patternCount`) of the pattern table, with valid indices `[0, patternCount)`,
so it is an unsigned (`size_t`-like, 32-bit on the target) count.  The
source's range check `patternIndex < patternTableSize` therefore compares a
signed `int` against an unsigned count, which in C++ converts the index to
the unsigned type first; this function is that comparison (`Int.emod` by
`2^32` is the unsigned conversion). -/
def intLtUnsigned (a : Int) (n : Nat) : Bool :=
  (a % (2 ^ 32 : Int)).toNat < n

/-- `StrokeEngine::setPattern` (src lines 106–135): if the index passes the
range check, select it, inject all four current motion parameters into the
newly selected pattern, and reset the step index to 0; otherwise return
`false` with no state change. -/
def StrokeEngine.setPattern (s : StrokeEngineState) (patternTableSize : Nat)
    (patternIndex : Int) : Bool × StrokeEngineState :=
  if intLtUnsigned patternIndex patternTableSize then
    (true,
     { s with patternIndex := patternIndex
              patterns := injectAll s.patterns patternIndex
                s.timeOfStroke s.depth s.stroke s.sensation
              index := 0 })
  else
    (false, s)

/-- `StrokeEngine::stopMotion` (src lines 214–234): only when `RUNNING`,
stop the servo at maximum legal deceleration and drop to `READY`. -/
def StrokeEngine.stopMotion (s : StrokeEngineState) :
    StrokeEngineState × List ServoCommand :=
  if s.state = ServoState.SERVO_RUNNING then
    ({ s with state := ServoState.SERVO_READY },
     [ServoCommand.setAcceleration s.maxStepAcceleration,
      ServoCommand.applySpeedAcceleration,
      ServoCommand.stopMove])
  else
    (s, [])

/-- `StrokeEngine::startMotion` (src lines 167–212): fails unless `READY`;
otherwise stops a pending move (if the servo is running), enters `RUNNING`,
resets the pattern step index to `-1` and injects all four current motion
parameters into the selected pattern, then spawns the stroking task. -/
def StrokeEngine.startMotion (s : StrokeEngineState) (servoIsRunning : Bool) :
    Bool × StrokeEngineState × List ServoCommand :=
  if s.state ≠ ServoState.SERVO_READY then
    (false, s, [])
  else
    (true,
     { s with state := ServoState.SERVO_RUNNING
              index := -1
              patterns := injectAll s.patterns s.patternIndex
                s.timeOfStroke s.depth s.stroke s.sensation },
     if servoIsRunning then
       [ServoCommand.setAcceleration s.maxStepAcceleration,
        ServoCommand.applySpeedAcceleration,
        ServoCommand.stopMove]
     else [])

/-- `StrokeEngine::_applyMotionProfile` (src lines 545–562): clamp speed to
`[1, maxStepPerSecond]`, acceleration to `[1, maxStepAcceleration]`,
position to `[minStep, maxStep]`, and issue the three driver calls. -/
def StrokeEngine._applyMotionProfile (s : StrokeEngineState)
    (motion : motionParameter) : List ServoCommand :=
  [ServoCommand.setSpeedInHz (constrain motion.speed 1 s.maxStepPerSecond),
   ServoCommand.setAcceleration
     (constrain motion.acceleration 1 s.maxStepAcceleration),
   ServoCommand.moveTo (constrain motion.position s.minStep s.maxStep)]

/-- `StrokeEngine::moveToMax` (src lines 285–318): fails when not homed;
otherwise stops motion, applies a conservative move to `maxStep` at
`maxStepAcceleration / 10`, and sets state `READY`. -/
def StrokeEngine.moveToMax (s : StrokeEngineState) (speed : CDouble) :
    Bool × StrokeEngineState × List ServoCommand :=
  if s.isHomed then
    let stopped := StrokeEngine.stopMotion s
    let currentMotion : motionParameter :=
      { position := stopped.1.maxStep
        speed := (speed.mul s.motor.stepsPerMillimeter).trunc
        acceleration := stopped.1.maxStepAcceleration / 10 }
    (true,
     { stopped.1 with state := ServoState.SERVO_READY },
     stopped.2 ++ StrokeEngine._applyMotionProfile stopped.1 currentMotion)
  else
    (false, s, [])

/-- `StrokeEngine::moveToMin` (src lines 320–353): fails when not homed;
otherwise stops motion, applies a conservative move to `minStep` at
`maxStepAcceleration / 10`, and sets state `READY`. -/
def StrokeEngine.moveToMin (s : StrokeEngineState) (speed : CDouble) :
    Bool × StrokeEngineState × List ServoCommand :=
  if s.isHomed then
    let stopped := StrokeEngine.stopMotion s
    let currentMotion : motionParameter :=
      { position := stopped.1.minStep
        speed := (speed.mul s.motor.stepsPerMillimeter).trunc
        acceleration := stopped.1.maxStepAcceleration / 10 }
    (true,
     { stopped.1 with state := ServoState.SERVO_READY },
     stopped.2 ++ StrokeEngine._applyMotionProfile stopped.1 currentMotion)
  else
    (false, s, [])

/-- `StrokeEngine::disable` (src lines 359–377): unconditionally sets
`DISABLED`, clears `isHomed`, disables the driver outputs and kills a
pending homing task.  There is no guard for the `ERROR` state. -/
def StrokeEngine.disable (s : StrokeEngineState) :
    StrokeEngineState × List ServoCommand :=
  ({ s with state := ServoState.SERVO_DISABLED, isHomed := false },
   [ServoCommand.disableOutputs])

/-- `StrokeEngine::safeState` (src lines 379–393): calls `disable`, then
sets the `ERROR` state. -/
def StrokeEngine.safeState (s : StrokeEngineState) :
    StrokeEngineState × List ServoCommand :=
  let d := StrokeEngine.disable s
  ({ d.1 with state := ServoState.SERVO_ERROR }, d.2)

/-- `StrokeEngine::thisIsHome` (src lines 272–283): except in `ERROR`,
enables outputs, reassigns the current position to
`-stepsPerMillimeter * keepoutBoundary` and enters `READY` homed. -/
def StrokeEngine.thisIsHome (s : StrokeEngineState) :
    StrokeEngineState × List ServoCommand :=
  if s.state ≠ ServoState.SERVO_ERROR then
    ({ s with isHomed := true, state := ServoState.SERVO_READY },
     [ServoCommand.enableOutputs,
      ServoCommand.setCurrentPosition
        ((s.motor.stepsPerMillimeter.neg.mul s.physics.keepoutBoundary).trunc)])
  else
    (s, [])

/-- `StrokeEngine::enableAndHome` (src lines 244–270): stores the homing
pin, polarity and feedrate, stops any running motion, enables the driver
outputs and spawns the homing task. -/
def StrokeEngine.enableAndHome (s : StrokeEngineState) (pin activeLow : Int)
    (speed : CDouble) : StrokeEngineState × List ServoCommand :=
  let s1 := { s with homeingPin := pin
                     homeingActiveLow := activeLow
                     homeingSpeed := speed.mul s.motor.stepsPerMillimeter }
  let stopped := StrokeEngine.stopMotion s1
  (stopped.1, stopped.2 ++ [ServoCommand.enableOutputs])

/-- What the stroking loop reads back from the driver in one cycle:
`isRunning()`, `getCurrentPosition()`, and the current speed in steps/s
(the source's `int((1000000.0 / getCurrentSpeedInUs()) + 0.5)`, signed and
direction-aware). -/
structure DriverReport where
  isRunning : Bool
  currentPosition : Int
  currentSpeed : Int
  deriving DecidableEq, Repr

/-- Src lines 516–522: remaining travel toward the boundary in the current
motion direction: `maxStep - position` on a forward move
(`currentSpeed > 0`), `position - minStep` otherwise. -/
def distanceToCrash (s : StrokeEngineState)
    (currentSpeed currentPosition : Int) : Int :=
  if currentSpeed > 0 then s.maxStep - currentPosition
  else currentPosition - s.minStep

/-- Src line 525: `minimumDeceleration = int(sq(currentSpeed) /
(2.0 * distanceToCrash) + 0.5)`.  The source has no guard for
`distanceToCrash == 0`: the `double` division is a division by zero there
(the quotient is infinite or NaN and the conversion to `int` is undefined
behaviour), so the embedding returns `none` in that case and the rounded
quotient otherwise. -/
def minimumDeceleration (currentSpeed dtc : Int) : Option Int :=
  if dtc = 0 then none
  else
    some ((((CDouble.ofInt (currentSpeed * currentSpeed)).div
      ((CDouble.ofInt 2).mul (CDouble.ofInt dtc))).add ⟨1, 2⟩).trunc)

/-- Outcome of one iteration of the stroking loop body:
whether the task deleted itself (state left `RUNNING`), the updated engine
state, the index passed to the pattern's `nextTarget` (if the driver was
idle), and the driver calls issued (`none` when the crash-avoidance
division was undefined). -/
structure StrokeCycleResult where
  exited : Bool
  engine : StrokeEngineState
  requestedIndex : Option Int
  commands : Option (List ServoCommand)

/-- One iteration of `StrokeEngine::_stroking`'s loop body (src lines
492–542): self-terminate unless `RUNNING`; if the driver is idle, increment
the pattern index, fetch the next target, override its acceleration with
the crash-avoidance minimum deceleration, and apply the motion profile.
`nextTarget` stands for the selected pattern object's `nextTarget`. -/
def StrokeEngine._strokingCycle (s : StrokeEngineState)
    (nextTarget : PatternState → Int → motionParameter)
    (d : DriverReport) : StrokeCycleResult :=
  if s.state ≠ ServoState.SERVO_RUNNING then
    ⟨true, s, none, none⟩
  else if d.isRunning then
    ⟨false, s, none, some []⟩
  else
    let s1 := { s with index := s.index + 1 }
    let currentMotion := nextTarget (s.patterns s.patternIndex) (s.index + 1)
    let dtc := distanceToCrash s d.currentSpeed d.currentPosition
    match minimumDeceleration d.currentSpeed dtc with
    | none => ⟨false, s1, some (s.index + 1), none⟩
    | some md =>
        ⟨false, s1, some (s.index + 1),
         some (StrokeEngine._applyMotionProfile s
           { currentMotion with
               acceleration := max currentMotion.acceleration md })⟩

/-- One poll observation during the homing loop: whether the driver still
reports `isRunning()`, and the digital level `digitalRead` returns for each
pin at that instant. -/
structure HomingPollSample where
  isRunning : Bool
  read : Int → Int

/-- The polling loop of `StrokeEngine::_homingProcedure` (src lines
434–453) over a finite trace of observations: while the driver runs, a read
of `LOW` on the `SERVO_ENDSTOP` pin (the level is hardcoded; the configured
polarity is not consulted here) force-stops with the position reassigned to
`-stepsPerMillimeter * keepoutBoundary` and issues a move to zero.
Returns whether the switch was considered found, with the issued calls. -/
def homingPoll (s : StrokeEngineState) (endstopPin : Int) :
    List HomingPollSample → Bool × List ServoCommand
  | [] => (false, [])
  | c :: rest =>
      if c.isRunning = false then (false, [])
      else if c.read endstopPin = LOW then
        (true,
         [ServoCommand.forceStopAndNewPosition
            ((s.motor.stepsPerMillimeter.neg.mul
              s.physics.keepoutBoundary).trunc),
          ServoCommand.moveTo 0])
      else homingPoll s endstopPin rest

/-- Result of one run of the homing task: final engine state, driver calls
issued, and the argument passed to the completion callback (when set). -/
structure HomingOutcome where
  engine : StrokeEngineState
  commands : List ServoCommand
  callbackArg : Option Bool

/-- `StrokeEngine::_homingProcedure` (src lines 410–485): set the homing
feedrate and a moderate deceleration; read the `SERVO_ENDSTOP` pin (a
compile-time constant pin, not the configured `_homeingPin`) against
`!_homeingActiveLow` to decide between the back-off-and-return approach and
the full-travel approach; then run the polling loop; on failure disable
outputs and set `DISABLED`, on success set `READY`; finally report the
result to the callback.  `initialRead` is `digitalRead` at the initial
check; `samples` is the polling trace. -/
def StrokeEngine._homingProcedure (s : StrokeEngineState) (endstopPin : Int)
    (initialRead : Int → Int) (samples : List HomingPollSample)
    (hasCallback : Bool) : HomingOutcome :=
  let setup := [ServoCommand.setSpeedInHz s.homeingSpeed.trunc,
                ServoCommand.setAcceleration (s.maxStepAcceleration / 10)]
  let approach :=
    if initialRead endstopPin = (if s.homeingActiveLow = 0 then HIGH else LOW)
    then
      [ServoCommand.move
         ((s.motor.stepsPerMillimeter.mul
           ((CDouble.ofInt 2).mul s.physics.keepoutBoundary)).trunc),
       ServoCommand.move
         ((s.motor.stepsPerMillimeter.neg.mul
           ((CDouble.ofInt 4).mul s.physics.keepoutBoundary)).trunc)]
    else
      [ServoCommand.move
         ((s.motor.stepsPerMillimeter.neg.mul s.physics.physicalTravel).trunc)]
  let poll := homingPoll s endstopPin samples
  let homed := if poll.1 then true else s.isHomed
  { engine :=
      { s with isHomed := homed
               state := if homed then ServoState.SERVO_READY
                        else ServoState.SERVO_DISABLED }
    commands := setup ++ approach ++ poll.2 ++
      (if homed then [] else [ServoCommand.disableOutputs])
    callbackArg := if hasCallback then some homed else none }

/-- Spec-side definition, following the spec's words for §4.4:
`minimumDeceleration = ceil(currentSpeed² / (2 × distanceToCrash))`,
written in the standard integer form of the rational ceiling for a
positive denominator: `⌈a / b⌉ = -((-a) / b)` with Euclidean division. -/
def specMinimumDeceleration (currentSpeed dtc : Int) : Int :=
  -((-(currentSpeed * currentSpeed)) / (2 * dtc))

/-- A constant parameter view making every pattern start from time-of-stroke
1 s and zeroed parameters; used to build concrete engines. -/
def pat0 : Int → PatternState := fun _ => ⟨CDouble.ofInt 1, 0, 0, CDouble.ofInt 0⟩

/-- A concrete geometry: 160 mm physical travel, 5 mm keepout. -/
def sampleGeometry : machineGeometry := ⟨CDouble.ofInt 160, CDouble.ofInt 5⟩

/-- A concrete motor: 20 steps/mm, 3000 RPM, 200 steps/rev, 10000 rev/s²
maximum acceleration.  Derived limits: `maxStep = 3000`,
`maxStepPerSecond = 10000`, `maxStepAcceleration = 2000000`. -/
def sampleMotor : motorProperties :=
  ⟨CDouble.ofInt 20, CDouble.ofInt 3000, CDouble.ofInt 200, CDouble.ofInt 10000⟩

/-- The same motor with a small maximum acceleration (5 rev/s², so
`maxStepAcceleration = 1000`). -/
def sampleMotorSmallAccel : motorProperties :=
  ⟨CDouble.ofInt 20, CDouble.ofInt 3000, CDouble.ofInt 200, CDouble.ofInt 5⟩

/-- A concrete engine right after `begin`. -/
def sampleEngine : StrokeEngineState :=
  StrokeEngine.begin sampleGeometry sampleMotor pat0

/-- The concrete engine in the `READY` state. -/
def readySampleEngine : StrokeEngineState :=
  { sampleEngine with state := ServoState.SERVO_READY }

/-- The concrete engine in the `RUNNING` state. -/
def runningSampleEngine : StrokeEngineState :=
  { sampleEngine with state := ServoState.SERVO_RUNNING }

/-- A concrete engine whose `maxStepAcceleration` is only 1000. -/
def runningSmallAccelEngine : StrokeEngineState :=
  { StrokeEngine.begin sampleGeometry sampleMotorSmallAccel pat0 with
      state := ServoState.SERVO_RUNNING }

/-- A pattern `nextTarget` that always requests position 1500 at speed 500
with a small acceleration of 100. -/
def demoTarget : PatternState → Int → motionParameter := fun _ _ => ⟨1500, 500, 100⟩

/-- A driver report: idle, at position 2990, moving forward at 1000 steps/s
(so 10 steps from the `maxStep = 3000` boundary). -/
def demoDriver : DriverReport := ⟨false, 2990, 1000⟩

/-- A concrete value for the compile-time `SERVO_ENDSTOP` pin, distinct
from the pin configured in `homingDemoEngine`. -/
def endstopPinDemo : Int := 4

/-- The concrete engine after `enableAndHome(pin = 5, activeLow = 0,
speed = 5)`: the homing switch is configured active-HIGH on pin 5. -/
def homingDemoEngine : StrokeEngineState :=
  (StrokeEngine.enableAndHome sampleEngine 5 0 (CDouble.ofInt 5)).1

/-- A homing poll observation: the driver still runs and every digital pin
reads `LOW` (so the active-high switch of `homingDemoEngine` is inactive). -/
def homingDemoSample : HomingPollSample := ⟨true, fun _ => LOW⟩

/-- One homing run of `homingDemoEngine` in which every digital read
returns `LOW`, i.e. the configured active-high switch is never active. -/
def homingDemoOutcome : HomingOutcome :=
  StrokeEngine._homingProcedure homingDemoEngine endstopPinDemo
    (fun _ => LOW) [homingDemoSample] false

/-- The engine-state fields none of the four motion-parameter setters may
touch: lifecycle state, homing state, pattern selection, step index, the
derived limits and configuration, and every non-selected pattern. -/
def nonParameterFieldsEq (s t : StrokeEngineState) : Prop :=
  t.state = s.state ∧ t.isHomed = s.isHomed ∧
  t.patternIndex = s.patternIndex ∧ t.index = s.index ∧
  t.minStep = s.minStep ∧ t.maxStep = s.maxStep ∧
  t.maxStepPerSecond = s.maxStepPerSecond ∧
  t.maxStepAcceleration = s.maxStepAcceleration ∧
  t.physics = s.physics ∧ t.motor = s.motor ∧
  t.homeingPin = s.homeingPin ∧ t.homeingActiveLow = s.homeingActiveLow ∧
  t.homeingSpeed = s.homeingSpeed ∧
  ∀ j, j ≠ s.patternIndex → t.patterns j = s.patterns j

theorem specMinimumDeceleration_eq_ceil (c d : Int) (hd : 0 < d) :
    specMinimumDeceleration c d = ⌈((c * c : Int) : ℚ) / ((2 * d : Int) : ℚ)⌉ := by
  have h2 : (0 : Int) ≤ 2 * d := by omega
  have hnat : ((2 * d).toNat : Int) = 2 * d := Int.toNat_of_nonneg h2
  have hcast : ((2 * d : Int) : ℚ) = (((2 * d).toNat : ℕ) : ℚ) := by
    exact_mod_cast hnat.symm
  rw [show ((c * c : Int) : ℚ) / ((2 * d : Int) : ℚ) =
        -(((-(c * c) : Int) : ℚ) / ((2 * d : Int) : ℚ)) by push_cast; ring,
      Int.ceil_neg, hcast, Rat.floor_intCast_div_natCast, hnat]
  rfl

theorem constrain_max_ge (r m lo hi : Int) (h2 : m ≤ hi) :
    m ≤ constrain (max r m) lo hi := by
  have h3 := le_max_right r m
  unfold constrain
  split
  · omega
  · split <;> omega

theorem constrain_bounds (x lo hi : Int) (h : lo ≤ hi) :
    lo ≤ constrain x lo hi ∧ constrain x lo hi ≤ hi := by
  unfold constrain
  split
  · omega
  · split <;> omega

theorem updatePattern_same (ps : Int → PatternState) (i : Int)
    (f : PatternState → PatternState) : updatePattern ps i f i = f (ps i) := by
  simp [updatePattern]

theorem updatePattern_other (ps : Int → PatternState) (i j : Int)
    (f : PatternState → PatternState) (h : j ≠ i) :
    updatePattern ps i f j = ps j := by
  simp [updatePattern, h]

/-- C1: the claim says the `distanceToCrash == 0` case yields a defined
maximum deceleration.  The source (line 525) has no such guard: for every
current speed and position at a travel boundary (`distanceToCrash = 0`) the
crash-avoidance computation divides by zero and yields no defined value
(`none` in the embedding), so the code does not realise the claimed
behaviour. -/
theorem C1_minimumDeceleration_undefined_at_boundary (s : StrokeEngineState)
    (currentSpeed currentPosition : Int)
    (h : distanceToCrash s currentSpeed currentPosition = 0) :
    minimumDeceleration currentSpeed
      (distanceToCrash s currentSpeed currentPosition) = none := by
  rw [h]
  rfl

/-- Witness for C1 at a concrete input: the engine at the lower travel
boundary (position `minStep = 0`) while moving backwards at 100 steps/s. -/
theorem C1_minimumDeceleration_undefined_at_boundary_witness :
    distanceToCrash sampleEngine (-100) 0 = 0 ∧
    minimumDeceleration (-100) (distanceToCrash sampleEngine (-100) 0) = none :=
  ⟨by decide,
   C1_minimumDeceleration_undefined_at_boundary sampleEngine (-100) 0 (by decide)⟩

/-- C2 counterexample: the source (line 525) rounds to nearest
(`int(x + 0.5)`), not to the ceiling: at `currentSpeed = 1`,
`distanceToCrash = 10` the code computes `int(0.05 + 0.5) = 0`, while the
claim's `ceil(1²/20) = 1`.  Also, the acceleration actually applied to the
driver is clamped to `maxStepAcceleration` after the override: on an
engine with `maxStepAcceleration = 1000`, with `currentSpeed = 1000` and
`distanceToCrash = 10`, the issued acceleration is `1000 < 50000` even
though `minimumDeceleration = 50000`. -/
theorem C2_round_not_ceil_and_clamp_counterexample :
    (minimumDeceleration 1 10 = some 0 ∧ specMinimumDeceleration 1 10 = 1 ∧
      (0 : Int) ≠ 1) ∧
    ((StrokeEngine._strokingCycle runningSmallAccelEngine demoTarget
        demoDriver).commands =
      some [ServoCommand.setSpeedInHz 500, ServoCommand.setAcceleration 1000,
            ServoCommand.moveTo 1500] ∧
      (1000 : Int) < 50000) := by
  decide

/-- C2 (amended): each stroking cycle computes `minimumDeceleration =
int(currentSpeed² / (2·distanceToCrash) + 0.5)` (round to nearest, not the
ceiling) and overrides the pattern-requested acceleration with
`max(requested, minimumDeceleration)` before clamping; at `currentSpeed =
1000` steps/s and `distanceToCrash = 10` steps, `minimumDeceleration =
50000` and, provided `maxStepAcceleration ≥ 50000`, the acceleration issued
to the driver is `≥ 50000` even if the pattern requested less. -/
theorem C2_override_with_rounded_minimum (s : StrokeEngineState)
    (nextTarget : PatternState → Int → motionParameter) (d : DriverReport)
    (hA : 50000 ≤ s.maxStepAcceleration)
    (hrun : s.state = ServoState.SERVO_RUNNING)
    (hidle : d.isRunning = false)
    (hspeed : d.currentSpeed = 1000)
    (hdtc : distanceToCrash s d.currentSpeed d.currentPosition = 10) :
    minimumDeceleration d.currentSpeed
        (distanceToCrash s d.currentSpeed d.currentPosition) = some 50000 ∧
    ∃ v p,
      (StrokeEngine._strokingCycle s nextTarget d).commands =
        some [ServoCommand.setSpeedInHz v,
              ServoCommand.setAcceleration
                (constrain
                  (max (nextTarget (s.patterns s.patternIndex)
                    (s.index + 1)).acceleration 50000)
                  1 s.maxStepAcceleration),
              ServoCommand.moveTo p] ∧
      50000 ≤ constrain
        (max (nextTarget (s.patterns s.patternIndex)
          (s.index + 1)).acceleration 50000)
        1 s.maxStepAcceleration := by
  obtain ⟨dRun, dPos, dSpd⟩ := d
  dsimp only at hidle hspeed hdtc
  subst hidle
  subst hspeed
  have h50 : minimumDeceleration 1000 (distanceToCrash s 1000 dPos) =
      some 50000 := by
    rw [hdtc]
    decide
  refine ⟨h50, ?_⟩
  unfold StrokeEngine._strokingCycle
  rw [if_neg (by simp [hrun]), if_neg (by simp)]
  dsimp only
  rw [h50]
  exact ⟨_, _, rfl, constrain_max_ge _ _ _ _ hA⟩

/-- Witness for C2 (amended) on the concrete running engine
(`maxStepAcceleration = 2000000`), idle driver at position 2990 moving
forward at 1000 steps/s, with a pattern requesting acceleration 100. -/
theorem C2_override_with_rounded_minimum_witness :
    minimumDeceleration demoDriver.currentSpeed
        (distanceToCrash runningSampleEngine demoDriver.currentSpeed
          demoDriver.currentPosition) = some 50000 ∧
    ∃ v p,
      (StrokeEngine._strokingCycle runningSampleEngine demoTarget
          demoDriver).commands =
        some [ServoCommand.setSpeedInHz v,
              ServoCommand.setAcceleration
                (constrain
                  (max (demoTarget (runningSampleEngine.patterns
                    runningSampleEngine.patternIndex)
                    (runningSampleEngine.index + 1)).acceleration 50000)
                  1 runningSampleEngine.maxStepAcceleration),
              ServoCommand.moveTo p] ∧
      50000 ≤ constrain
        (max (demoTarget (runningSampleEngine.patterns
          runningSampleEngine.patternIndex)
          (runningSampleEngine.index + 1)).acceleration 50000)
        1 runningSampleEngine.maxStepAcceleration :=
  C2_override_with_rounded_minimum runningSampleEngine demoTarget demoDriver
    (by decide) rfl rfl rfl (by decide)

/-- C4: the claim says the `ERROR` state is terminal and in particular that
`disable()` cannot change the state away from `ERROR`.  In the source,
`disable` (lines 359–377) sets `DISABLED` unconditionally — there is no
`ERROR` guard (unlike `thisIsHome`) — so after `safeState()` a `disable()`
call leaves `ERROR`, contradicting the code's own message that the fault is
cleared only by removing power. -/
theorem C4_disable_escapes_error (s : StrokeEngineState) :
    (StrokeEngine.safeState s).1.state = ServoState.SERVO_ERROR ∧
    (StrokeEngine.disable (StrokeEngine.safeState s).1).1.state =
      ServoState.SERVO_DISABLED ∧
    ServoState.SERVO_DISABLED ≠ ServoState.SERVO_ERROR :=
  ⟨rfl, rfl, by decide⟩

/-- C5: `_applyMotionProfile` issues exactly a speed command clamped to
`[1, maxStepPerSecond]`, an acceleration command clamped to
`[1, maxStepAcceleration]` and a move to a position clamped to
`[minStep, maxStep]`, for every input and with no failure return. -/
theorem C5_applyMotionProfile_clamps (s : StrokeEngineState)
    (m : motionParameter) (h1 : 1 ≤ s.maxStepPerSecond)
    (h2 : 1 ≤ s.maxStepAcceleration) (h3 : s.minStep ≤ s.maxStep) :
    ∃ v a p, StrokeEngine._applyMotionProfile s m =
        [ServoCommand.setSpeedInHz v, ServoCommand.setAcceleration a,
         ServoCommand.moveTo p] ∧
      1 ≤ v ∧ v ≤ s.maxStepPerSecond ∧
      1 ≤ a ∧ a ≤ s.maxStepAcceleration ∧
      s.minStep ≤ p ∧ p ≤ s.maxStep := by
  obtain ⟨hv1, hv2⟩ := constrain_bounds m.speed 1 s.maxStepPerSecond h1
  obtain ⟨ha1, ha2⟩ := constrain_bounds m.acceleration 1 s.maxStepAcceleration h2
  obtain ⟨hp1, hp2⟩ := constrain_bounds m.position s.minStep s.maxStep h3
  exact ⟨_, _, _, rfl, hv1, hv2, ha1, ha2, hp1, hp2⟩

/-- Witness for C5 on the concrete engine, with an out-of-range request
(speed 0, acceleration −5, position 99999). -/
theorem C5_applyMotionProfile_clamps_witness :
    ∃ v a p, StrokeEngine._applyMotionProfile sampleEngine ⟨99999, 0, -5⟩ =
        [ServoCommand.setSpeedInHz v, ServoCommand.setAcceleration a,
         ServoCommand.moveTo p] ∧
      1 ≤ v ∧ v ≤ sampleEngine.maxStepPerSecond ∧
      1 ≤ a ∧ a ≤ sampleEngine.maxStepAcceleration ∧
      sampleEngine.minStep ≤ p ∧ p ≤ sampleEngine.maxStep :=
  C5_applyMotionProfile_clamps sampleEngine ⟨99999, 0, -5⟩
    (by decide) (by decide) (by decide)

/-- C6: the claim says `begin` defaults the stroke to `maxStep/3`.  The
source (line 28) computes `_stroke = 1/3 * _maxStep` with integer division,
and `1/3 == 0`, so the default stroke is `0`.  On the concrete engine
(`maxStep = 3000`) the other claimed defaults hold (`depth = maxStep`,
time-of-stroke 1 s, sensation 0) but `stroke = 0 ≠ 1000 = maxStep/3`. -/
theorem C6_begin_default_stroke_is_zero :
    sampleEngine.depth = sampleEngine.maxStep ∧
    sampleEngine.timeOfStroke = CDouble.ofInt 1 ∧
    sampleEngine.sensation = CDouble.ofInt 0 ∧
    sampleEngine.maxStep = 3000 ∧
    sampleEngine.maxStep / 3 = 1000 ∧
    sampleEngine.stroke = 0 ∧
    sampleEngine.stroke ≠ sampleEngine.maxStep / 3 := by
  decide

/-- C9: `moveToMax` and `moveToMin` on an unhomed engine return `false`,
issue no driver commands and leave the whole engine state unchanged. -/
theorem C9_moveTo_not_homed_no_effect (s : StrokeEngineState) (v w : CDouble)
    (h : s.isHomed = false) :
    StrokeEngine.moveToMax s v = (false, s, []) ∧
    StrokeEngine.moveToMin s w = (false, s, []) := by
  constructor <;> simp [StrokeEngine.moveToMax, StrokeEngine.moveToMin, h]

/-- Witness for C9 on the freshly initialised engine (not homed). -/
theorem C9_moveTo_not_homed_no_effect_witness :
    StrokeEngine.moveToMax sampleEngine (CDouble.ofInt 10) =
      (false, sampleEngine, []) ∧
    StrokeEngine.moveToMin sampleEngine (CDouble.ofInt 10) =
      (false, sampleEngine, []) :=
  C9_moveTo_not_homed_no_effect sampleEngine (CDouble.ofInt 10)
    (CDouble.ofInt 10) rfl

/-- C3: for every `int` index `i` (32-bit signed range) and pattern count at
most `2^31`, `setPattern i` returns `false` with the engine state unchanged
when `i < 0` or `i ≥ patternCount`, and returns `true` when
`0 ≤ i < patternCount`.  The source's single range check
`patternIndex < patternTableSize` compares against the unsigned table size
(modelled from the spec, see `intLtUnsigned`), which also rejects negative
indices. -/
theorem C3_setPattern_range_check (s : StrokeEngineState)
    (patternTableSize : Nat) (i : Int) (hn : patternTableSize ≤ 2 ^ 31)
    (hlo : -(2 ^ 31) ≤ i) (hhi : i < 2 ^ 31) :
    ((i < 0 ∨ (patternTableSize : Int) ≤ i) →
      StrokeEngine.setPattern s patternTableSize i = (false, s)) ∧
    ((0 ≤ i ∧ i < (patternTableSize : Int)) →
      (StrokeEngine.setPattern s patternTableSize i).1 = true) := by
  constructor
  · intro hcase
    have hfalse : intLtUnsigned i patternTableSize = false := by
      simp only [intLtUnsigned, decide_eq_false_iff_not]
      omega
    simp [StrokeEngine.setPattern, hfalse]
  · intro hcase
    have htrue : intLtUnsigned i patternTableSize = true := by
      simp only [intLtUnsigned, decide_eq_true_eq]
      omega
    simp [StrokeEngine.setPattern, htrue]

/-- Witness for C3 at a table of 4 patterns: index −1 is rejected with no
state change, index 2 is accepted. -/
theorem C3_setPattern_range_check_witness :
    StrokeEngine.setPattern sampleEngine 4 (-1) = (false, sampleEngine) ∧
    (StrokeEngine.setPattern sampleEngine 4 2).1 = true :=
  ⟨(C3_setPattern_range_check sampleEngine 4 (-1) (by norm_num) (by norm_num)
      (by norm_num)).1 (Or.inl (by norm_num)),
   (C3_setPattern_range_check sampleEngine 4 2 (by norm_num) (by norm_num)
      (by norm_num)).2 ⟨by norm_num, by norm_num⟩⟩

/-- C7: the claim says homing detects switch activation on the configured
pin with the configured polarity at both the initial check and the polling
loop.  In the source, the initial check (line 416) and the poll (line 438)
read the compile-time `SERVO_ENDSTOP` pin, not the configured `_homeingPin`,
and the poll compares against hardcoded `LOW`, ignoring
`_homeingActiveLow`.  Concretely: with an active-HIGH switch configured on
pin 5 and every digital line reading `LOW` (switch never active), the first
poll "finds" the switch — position is force-reassigned to
`−keepoutBoundary` in steps (−100 here), a move-to-zero is issued, and the
run ends homed and `READY`. -/
theorem C7_homing_ignores_configured_pin_and_polarity :
    homingDemoEngine.homeingPin = 5 ∧
    homingDemoEngine.homeingActiveLow = 0 ∧
    homingDemoSample.read homingDemoEngine.homeingPin = LOW ∧
    LOW ≠ HIGH ∧
    homingDemoOutcome.engine.isHomed = true ∧
    homingDemoOutcome.engine.state = ServoState.SERVO_READY ∧
    ServoCommand.forceStopAndNewPosition (-100) ∈ homingDemoOutcome.commands ∧
    ServoCommand.moveTo 0 ∈ homingDemoOutcome.commands := by
  decide

/-- C8: from `READY`, `startMotion` succeeds, resets the pattern step index
to −1, injects all four current motion parameters into the selected
pattern, and the first stroking cycle on an idle driver requests the
pattern target at index 0. -/
theorem C8_startMotion_resets_and_first_cycle_requests_zero
    (s : StrokeEngineState)
    (nextTarget : PatternState → Int → motionParameter) (d : DriverReport)
    (servoIsRunning : Bool) (hready : s.state = ServoState.SERVO_READY)
    (hidle : d.isRunning = false) :
    (StrokeEngine.startMotion s servoIsRunning).1 = true ∧
    (StrokeEngine.startMotion s servoIsRunning).2.1.index = -1 ∧
    (StrokeEngine.startMotion s servoIsRunning).2.1.patternIndex =
      s.patternIndex ∧
    (StrokeEngine.startMotion s servoIsRunning).2.1.patterns s.patternIndex =
      ⟨s.timeOfStroke, s.depth, s.stroke, s.sensation⟩ ∧
    (StrokeEngine._strokingCycle (StrokeEngine.startMotion s servoIsRunning).2.1
      nextTarget d).requestedIndex = some 0 := by
  have hs : StrokeEngine.startMotion s servoIsRunning =
      (true,
       { s with state := ServoState.SERVO_RUNNING
                index := -1
                patterns := injectAll s.patterns s.patternIndex
                  s.timeOfStroke s.depth s.stroke s.sensation },
       if servoIsRunning then
         [ServoCommand.setAcceleration s.maxStepAcceleration,
          ServoCommand.applySpeedAcceleration, ServoCommand.stopMove]
       else []) := by
    simp [StrokeEngine.startMotion, hready]
  rw [hs]
  refine ⟨rfl, rfl, rfl, ?_, ?_⟩
  · simp [injectAll, updatePattern_same]
  · simp only [StrokeEngine._strokingCycle, hidle]
    simp
    split <;> rfl

/-- Witness for C8 on the concrete engine in `READY`, idle driver. -/
theorem C8_startMotion_resets_and_first_cycle_requests_zero_witness :
    (StrokeEngine.startMotion readySampleEngine false).1 = true ∧
    (StrokeEngine.startMotion readySampleEngine false).2.1.index = -1 ∧
    (StrokeEngine.startMotion readySampleEngine false).2.1.patternIndex =
      readySampleEngine.patternIndex ∧
    (StrokeEngine.startMotion readySampleEngine false).2.1.patterns
      readySampleEngine.patternIndex =
      ⟨readySampleEngine.timeOfStroke, readySampleEngine.depth,
       readySampleEngine.stroke, readySampleEngine.sensation⟩ ∧
    (StrokeEngine._strokingCycle
      (StrokeEngine.startMotion readySampleEngine false).2.1 demoTarget
      ⟨false, 0, 0⟩).requestedIndex = some 0 :=
  C8_startMotion_resets_and_first_cycle_requests_zero readySampleEngine
    demoTarget ⟨false, 0, 0⟩ false rfl rfl

/-- C10: each of `setSpeed`, `setDepth`, `setStroke`, `setSensation`
modifies only its own stored parameter and the selected pattern's copy of
that parameter: the lifecycle state, `isHomed`, the active pattern index,
the step index, the derived limits and configuration, the other three
stored parameters, every non-selected pattern, and the other three fields
of the selected pattern are unchanged, for every input value. -/
theorem C10_setters_touch_only_their_parameter (s : StrokeEngineState)
    (x : CDouble) :
    (nonParameterFieldsEq s (StrokeEngine.setSpeed s x) ∧
      (StrokeEngine.setSpeed s x).depth = s.depth ∧
      (StrokeEngine.setSpeed s x).stroke = s.stroke ∧
      (StrokeEngine.setSpeed s x).sensation = s.sensation ∧
      ((StrokeEngine.setSpeed s x).patterns s.patternIndex).depth =
        (s.patterns s.patternIndex).depth ∧
      ((StrokeEngine.setSpeed s x).patterns s.patternIndex).stroke =
        (s.patterns s.patternIndex).stroke ∧
      ((StrokeEngine.setSpeed s x).patterns s.patternIndex).sensation =
        (s.patterns s.patternIndex).sensation) ∧
    (nonParameterFieldsEq s (StrokeEngine.setDepth s x) ∧
      (StrokeEngine.setDepth s x).timeOfStroke = s.timeOfStroke ∧
      (StrokeEngine.setDepth s x).stroke = s.stroke ∧
      (StrokeEngine.setDepth s x).sensation = s.sensation ∧
      ((StrokeEngine.setDepth s x).patterns s.patternIndex).timeOfStroke =
        (s.patterns s.patternIndex).timeOfStroke ∧
      ((StrokeEngine.setDepth s x).patterns s.patternIndex).stroke =
        (s.patterns s.patternIndex).stroke ∧
      ((StrokeEngine.setDepth s x).patterns s.patternIndex).sensation =
        (s.patterns s.patternIndex).sensation) ∧
    (nonParameterFieldsEq s (StrokeEngine.setStroke s x) ∧
      (StrokeEngine.setStroke s x).timeOfStroke = s.timeOfStroke ∧
      (StrokeEngine.setStroke s x).depth = s.depth ∧
      (StrokeEngine.setStroke s x).sensation = s.sensation ∧
      ((StrokeEngine.setStroke s x).patterns s.patternIndex).timeOfStroke =
        (s.patterns s.patternIndex).timeOfStroke ∧
      ((StrokeEngine.setStroke s x).patterns s.patternIndex).depth =
        (s.patterns s.patternIndex).depth ∧
      ((StrokeEngine.setStroke s x).patterns s.patternIndex).sensation =
        (s.patterns s.patternIndex).sensation) ∧
    (nonParameterFieldsEq s (StrokeEngine.setSensation s x) ∧
      (StrokeEngine.setSensation s x).timeOfStroke = s.timeOfStroke ∧
      (StrokeEngine.setSensation s x).depth = s.depth ∧
      (StrokeEngine.setSensation s x).stroke = s.stroke ∧
      ((StrokeEngine.setSensation s x).patterns s.patternIndex).timeOfStroke =
        (s.patterns s.patternIndex).timeOfStroke ∧
      ((StrokeEngine.setSensation s x).patterns s.patternIndex).depth =
        (s.patterns s.patternIndex).depth ∧
      ((StrokeEngine.setSensation s x).patterns s.patternIndex).stroke =
        (s.patterns s.patternIndex).stroke) := by
  refine ⟨?_, ?_, ?_, ?_⟩ <;>
    refine ⟨⟨rfl, rfl, rfl, rfl, rfl, rfl, rfl, rfl, rfl, rfl, rfl, rfl, rfl,
      ?_⟩, rfl, rfl, rfl, ?_, ?_, ?_⟩ <;>
    first
      | (intro j hj
         simp [StrokeEngine.setSpeed, StrokeEngine.setDepth,
           StrokeEngine.setStroke, StrokeEngine.setSensation,
           updatePattern_other, hj])
      | simp [StrokeEngine.setSpeed, StrokeEngine.setDepth,
          StrokeEngine.setStroke, StrokeEngine.setSensation,
          updatePattern_same]

/-- Witness for C10: a couple of concrete frame facts extracted from the
theorem at the concrete engine. -/
theorem C10_setters_touch_only_their_parameter_witness :
    (StrokeEngine.setSpeed sampleEngine (CDouble.ofInt 30)).state =
      sampleEngine.state ∧
    (StrokeEngine.setSpeed sampleEngine (CDouble.ofInt 30)).patterns 1 =
      sampleEngine.patterns 1 ∧
    (StrokeEngine.setDepth sampleEngine (CDouble.ofInt 50)).stroke =
      sampleEngine.stroke :=
  ⟨(C10_setters_touch_only_their_parameter sampleEngine
      (CDouble.ofInt 30)).1.1.1,
   (C10_setters_touch_only_their_parameter sampleEngine
      (CDouble.ofInt 30)).1.1.2.2.2.2.2.2.2.2.2.2.2.2.2 1 (by decide),
   (C10_setters_touch_only_their_parameter sampleEngine
      (CDouble.ofInt 50)).2.1.2.2.1⟩
